import Mathlib

/-!
Verification of the mxs-regulator driver core.

Shallow embedding of the driver sources:
  * the vdda/vddd power-source classifier and the bind-time linreg-offset
    correction from the selector-based driver variant;
  * the voltage-selector engine with its classifier shortcut and
    DC-OK poll loop;
  * the two-phase voltage setter of the named driver file;
  * the current-budget arbiter (main_add_current / mxs_set_current_limit);
  * the DC-DC clock-frequency setup of the power subsystem.

Registers are modelled as natural numbers (values below 2 to the 32);
the C bitwise operators map to the corresponding Nat operators, with the
32-bit complement made explicit.  Successive reads of the shared status
register are modelled as a read trace indexed by the order of the reads,
and the time budget of a poll loop as the number of reads the budget
admits.  Currents are modelled as integers.  Error returns keep the C
errno values.
-/

/-- Errno value used by the driver both for invalid arguments (invalid
selector, unrecognized frequency) and for a rejected current reservation. -/
def EINVAL : Int := 22

/-- Errno value returned when the DC-OK handshake never asserts in budget. -/
def ETIMEDOUT : Int := 110

/-- 32-bit complement of a mask, as the C unary tilde on a u32 computes it. -/
def compl32 (m : Nat) : Nat := 0xFFFFFFFF ^^^ m

def HW_POWER_LINREG_OFFSET_LINREG_MODE : Nat := 0
def HW_POWER_LINREG_OFFSET_DCDC_MODE : Nat := 2

def HW_POWER_LINREG_DCDC_OFF : Nat := 1
def HW_POWER_LINREG_DCDC_READY : Nat := 2
def HW_POWER_DCDC_LINREG_ON : Nat := 3
def HW_POWER_DCDC_LINREG_OFF : Nat := 4
def HW_POWER_DCDC_LINREG_READY : Nat := 5
def HW_POWER_EXTERNAL_SOURCE_5V : Nat := 6
def HW_POWER_EXTERNAL_SOURCE_BATTERY : Nat := 7
def HW_POWER_UNKNOWN_SOURCE : Nat := 8

def BM_POWER_STS_VBUSVALID0_STATUS : Nat := 1 <<< 15
def BM_POWER_STS_DC_OK : Nat := 1 <<< 9
def BM_POWER_5VCTRL_ENABLE_DCDC : Nat := 1

def REGULATOR_MODE_FAST : Nat := 1
def REGULATOR_MODE_NORMAL : Nat := 2

/-- Per-kind regulator descriptor fields used by the embedded operations
(struct mxs_regulator together with the regulator_desc fields the code
reads). -/
structure MxsRegulator where
  n_voltages : Nat
  vsel_mask : Nat
  enable_mask : Nat
  disable_fet_mask : Nat
  linreg_offset_mask : Nat
  linreg_offset_shift : Nat
deriving DecidableEq

/-- Coherent snapshot of the three registers the classifier reads:
own control register, shared status register, shared 5V-control register. -/
structure RegSnapshot where
  base : Nat
  status : Nat
  v5ctrl : Nat
deriving DecidableEq

/-- C source: `return regs & sreg->linreg_offset_mask >> sreg->linreg_offset_shift;`.
In C the shift binds tighter than the bitwise and, so this computes
`regs & (mask >> shift)`; the result is truncated to u8 by the return type. -/
def get_linreg_offset (sreg : MxsRegulator) (regs : Nat) : Nat :=
  (regs &&& (sreg.linreg_offset_mask >>> sreg.linreg_offset_shift)) % 256

/-- The linreg-offset field as the spec and the claims describe it: the bits
selected by linreg_offset_mask, shifted down by linreg_offset_shift
(truncated to u8 as the intended C code would be). -/
def spec_linreg_offset (sreg : MxsRegulator) (regs : Nat) : Nat :=
  ((regs &&& sreg.linreg_offset_mask) >>> sreg.linreg_offset_shift) % 256

/-- Shared tail of get_vdda_vddd_power_source, reached when the leading
disable-FET conditional falls through: the 5V-valid check, then the
DC-DC-mode check against the regulator enable bit. -/
def vdda_vddd_tail (sreg : MxsRegulator) (s : RegSnapshot) (linreg : Nat) : Nat :=
  if (s.status &&& BM_POWER_STS_VBUSVALID0_STATUS) ≠ 0 then
    if (s.v5ctrl &&& BM_POWER_5VCTRL_ENABLE_DCDC) ≠ 0 then HW_POWER_DCDC_LINREG_ON
    else HW_POWER_LINREG_DCDC_OFF
  else if linreg = HW_POWER_LINREG_OFFSET_DCDC_MODE then
    if (s.base &&& sreg.enable_mask) ≠ 0 then HW_POWER_DCDC_LINREG_ON
    else HW_POWER_DCDC_LINREG_OFF
  else HW_POWER_UNKNOWN_SOURCE

/-- Embedding of get_vdda_vddd_power_source, using the offset value the code
actually computes (get_linreg_offset with the precedence slip). -/
def get_vdda_vddd_power_source (sreg : MxsRegulator) (s : RegSnapshot) : Nat :=
  let linreg := get_linreg_offset sreg s.base
  if (s.base &&& sreg.disable_fet_mask) ≠ 0 then
    if (s.status &&& BM_POWER_STS_VBUSVALID0_STATUS) ≠ 0 then HW_POWER_EXTERNAL_SOURCE_5V
    else if linreg = HW_POWER_LINREG_OFFSET_LINREG_MODE then HW_POWER_LINREG_DCDC_OFF
    else vdda_vddd_tail sreg s linreg
  else vdda_vddd_tail sreg s linreg

/-- The claim C1 decision tree, stated from the spec words: identical tree,
but the comparisons use the properly extracted linreg-offset field. -/
def spec_vdda_vddd_power_source (sreg : MxsRegulator) (s : RegSnapshot) : Nat :=
  let linreg := spec_linreg_offset sreg s.base
  if (s.base &&& sreg.disable_fet_mask) ≠ 0 then
    if (s.status &&& BM_POWER_STS_VBUSVALID0_STATUS) ≠ 0 then HW_POWER_EXTERNAL_SOURCE_5V
    else if linreg = HW_POWER_LINREG_OFFSET_LINREG_MODE then HW_POWER_LINREG_DCDC_OFF
    else vdda_vddd_tail sreg s linreg
  else vdda_vddd_tail sreg s linreg

/-- Descriptor of the vdda regulator (static table entry mxs_info_vdda). -/
def mxs_info_vdda : MxsRegulator :=
  { n_voltages := 0x20, vsel_mask := 0x1f, enable_mask := 1 <<< 17,
    disable_fet_mask := 1 <<< 16, linreg_offset_mask := 3 <<< 12,
    linreg_offset_shift := 12 }

/-- Descriptor of the vddd regulator (static table entry mxs_info_vddd). -/
def mxs_info_vddd : MxsRegulator :=
  { n_voltages := 0x20, vsel_mask := 0x1f, enable_mask := 1 <<< 21,
    disable_fet_mask := 1 <<< 20, linreg_offset_mask := 3 <<< 16,
    linreg_offset_shift := 16 }

/-- Embedding of regulator_init: the bind-time linreg-offset correction.
Returns the value written to the control register, or none when the
conditional does not fire and no write is performed.  The written value
mirrors the C code exactly: the bits under linreg_offset_mask are cleared
and the constant HW_POWER_LINREG_OFFSET_DCDC_MODE is ORed in unshifted. -/
def regulator_init (sreg : MxsRegulator) (gps : Option (RegSnapshot → Nat))
    (s : RegSnapshot) : Option Nat :=
  let linreg := get_linreg_offset sreg s.base
  let power_source := match gps with
    | some f => f s
    | none => HW_POWER_UNKNOWN_SOURCE
  if linreg < HW_POWER_LINREG_OFFSET_DCDC_MODE ∧
      (power_source = HW_POWER_DCDC_LINREG_ON ∨
       power_source = HW_POWER_DCDC_LINREG_READY ∨
       power_source = HW_POWER_EXTERNAL_SOURCE_5V) then
    some ((s.base &&& compl32 sreg.linreg_offset_mask) ||| HW_POWER_LINREG_OFFSET_DCDC_MODE)
  else none

/-- The rewrite claim C2 describes: the linreg-offset field set to the
DC-DC-mode encoding, all bits outside the field unchanged. -/
def spec_init_rewrite (sreg : MxsRegulator) (base : Nat) : Nat :=
  (base &&& compl32 sreg.linreg_offset_mask) |||
    (HW_POWER_LINREG_OFFSET_DCDC_MODE <<< sreg.linreg_offset_shift)

/-- Hardware state seen by the selector-based voltage engine: the own control
register, the shared 5V-control register, and the trace of successive reads
of the shared status register (read k of this call returns statusReads k). -/
structure VoltState where
  base : Nat
  v5ctrl : Nat
  statusReads : Nat → Nat

/-- Index of the first read, among reads idx, idx+1, ... within fuel reads,
whose value has the DC-OK bit set; none when the whole budget expires. -/
def findDcOk (reads : Nat → Nat) (idx : Nat) : Nat → Option Nat
  | 0 => none
  | n + 1 =>
    if (reads idx) &&& BM_POWER_STS_DC_OK ≠ 0 then some idx
    else findDcOk reads (idx + 1) n

/-- Value written to the control register by the selector engine:
the previous select bits cleared, the new selector ORed in. -/
def newBaseVal (sreg : MxsRegulator) (st : VoltState) (sel : Nat) : Nat :=
  sel ||| (st.base &&& compl32 sreg.vsel_mask)

/-- Power source computed by the engine right after the control-register
write; the classifier status read is read 0 of the trace.  A regulator
without a classifier reports the unknown source, as the C default does. -/
def classifiedSource (sreg : MxsRegulator) (gps : Option (RegSnapshot → Nat))
    (st : VoltState) (sel : Nat) : Nat :=
  match gps with
  | some f => f { base := newBaseVal sreg st sel, status := st.statusReads 0,
                  v5ctrl := st.v5ctrl }
  | none => HW_POWER_UNKNOWN_SOURCE

/-- The three classifier outcomes for which the engine skips the DC-OK poll
(the switch cases in mxs_set_voltage_sel). -/
def isLinregSource (ps : Nat) : Bool :=
  ps == HW_POWER_LINREG_DCDC_OFF || ps == HW_POWER_LINREG_DCDC_READY ||
    ps == HW_POWER_EXTERNAL_SOURCE_5V

/-- Everything observable about one mxs_set_voltage_sel call: the returned
errno, the final control-register value, the values written to it, the
sleeps taken (ms), the number of status polls, and the status value put
into the ratelimited timeout warning, if one was emitted. -/
structure SetSelOutcome where
  ret : Int
  base : Nat
  writes : List Nat
  sleeps : List Nat
  polls : Nat
  warnedStatus : Option Nat
deriving DecidableEq

/-- Embedding of mxs_set_voltage_sel.  An out-of-range selector is rejected
before any write.  Otherwise the select field is rewritten, the classifier
consulted, and either the linreg settle path taken (msleep 1000, success) or
the DC-OK poll run; pollBudget + 1 is the number of reads the 20 s jiffies
budget admits (the loop always reads at least once).  On expiry the code
reads the status register once more for the warning and returns -ETIMEDOUT. -/
def mxs_set_voltage_sel (sreg : MxsRegulator) (gps : Option (RegSnapshot → Nat))
    (st : VoltState) (sel : Nat) (pollBudget : Nat) : SetSelOutcome :=
  if sreg.n_voltages ≤ sel then
    { ret := -EINVAL, base := st.base, writes := [], sleeps := [], polls := 0,
      warnedStatus := none }
  else if isLinregSource (classifiedSource sreg gps st sel) then
    { ret := 0, base := newBaseVal sreg st sel, writes := [newBaseVal sreg st sel],
      sleeps := [1000], polls := 0, warnedStatus := none }
  else
    match findDcOk st.statusReads 1 (pollBudget + 1) with
    | some k =>
      { ret := 0, base := newBaseVal sreg st sel, writes := [newBaseVal sreg st sel],
        sleeps := [], polls := k, warnedStatus := none }
    | none =>
      { ret := -ETIMEDOUT, base := newBaseVal sreg st sel,
        writes := [newBaseVal sreg st sel], sleeps := [], polls := pollBudget + 1,
        warnedStatus := some (st.statusReads (pollBudget + 2)) }

/-- Embedding of mxs_get_voltage_sel: a pure read of the select field. -/
def mxs_get_voltage_sel (sreg : MxsRegulator) (base : Nat) : Nat :=
  base &&& sreg.vsel_mask

/-- Everything observable about one call of the two-phase voltage setter of
the named driver file: returned errno, control-register writes, and the value
of the last status read of the second phase when it expired. -/
structure SetVoltageOutcome where
  ret : Int
  writes : List Nat
  lastStatus : Option Nat
deriving DecidableEq

/-- Embedding of mxs_set_voltage (two-phase variant).  A target outside the
constraints is rejected; otherwise the select field value is computed from
the target, written, and polled: first 20 short-spin reads, then, after a
rewrite, budget2 + 1 yielding reads under the 80 ms jiffies budget.  If both
phases expire the call returns -ETIMEDOUT; the caller gets only that errno. -/
def mxs_set_voltage (con_min con_max : Int) (n_voltages vsel_mask : Nat)
    (base0 : Nat) (reads : Nat → Nat) (budget2 : Nat) (max_uV : Int) :
    SetVoltageOutcome :=
  if max_uV < con_min ∨ con_max < max_uV then
    { ret := -EINVAL, writes := [], lastStatus := none }
  else
    let val := (((max_uV - con_min) * (n_voltages : Int)) / (con_max - con_min)).toNat
    let w := val ||| (base0 &&& compl32 vsel_mask)
    match findDcOk reads 0 20 with
    | some _ => { ret := 0, writes := [w], lastStatus := none }
    | none =>
      match findDcOk reads 20 (budget2 + 1) with
      | some _ => { ret := 0, writes := [w, w], lastStatus := none }
      | none =>
        { ret := -ETIMEDOUT, writes := [w, w],
          lastStatus := some (reads (20 + budget2)) }

/-- Embedding of main_add_current: the ceiling check and commit performed
under the parent lock.  Returns the errno and the new allocation. -/
def main_add_current (cur_uA max_uA uA : Int) : Int × Int :=
  if uA > 0 ∧ cur_uA + uA > max_uA then (-EINVAL, cur_uA)
  else (0, cur_uA + uA)

/-- Result of one mxs_set_current_limit call in the sequential model:
success (with the new own and parent allocations and whether waiters were
woken), an immediate error (fast mode), or entry into the wait_event loop,
which without sibling activity never returns (blocked). -/
inductive CurrentLimitResult where
  | ok (sreg_cur parent_cur : Int) (wokeWaiters : Bool)
  | err (code sreg_cur parent_cur : Int)
  | blocked (sreg_cur parent_cur : Int)
deriving DecidableEq

/-- Own allocation after the call (unchanged on the err and blocked paths). -/
def CurrentLimitResult.sregCurAfter : CurrentLimitResult → Int
  | .ok s _ _ => s
  | .err _ s _ => s
  | .blocked s _ => s

/-- Parent allocation after the call. -/
def CurrentLimitResult.parentCurAfter : CurrentLimitResult → Int
  | .ok _ p _ => p
  | .err _ _ p => p
  | .blocked _ p => p

/-- Whether the call entered the blocking wait path. -/
def CurrentLimitResult.isBlocked : CurrentLimitResult → Bool
  | .blocked _ _ => true
  | _ => false

/-- Embedding of mxs_set_current_limit.  With a parent, the delta between the
request and the own allocation is reserved against the parent under its lock
(main_add_current); on failure a fast-mode instance returns the error at
once, a normal-mode instance enters the wait_event loop.  On the success path
the own allocation becomes the request and, when the request shrank the
allocation, all waiters on the parent are woken.  Without a parent the update
is unconditional. -/
def mxs_set_current_limit (hasParent : Bool) (sreg_cur parent_cur parent_max : Int)
    (mode : Nat) (max_uA : Int) : CurrentLimitResult :=
  if hasParent then
    if (main_add_current parent_cur parent_max (max_uA - sreg_cur)).1 = 0 then
      CurrentLimitResult.ok max_uA
        (main_add_current parent_cur parent_max (max_uA - sreg_cur)).2
        (decide (max_uA - sreg_cur < 0))
    else if mode = REGULATOR_MODE_FAST then
      CurrentLimitResult.err (main_add_current parent_cur parent_max (max_uA - sreg_cur)).1
        sreg_cur (main_add_current parent_cur parent_max (max_uA - sreg_cur)).2
    else CurrentLimitResult.blocked sreg_cur parent_cur
  else CurrentLimitResult.ok max_uA parent_cur false

def SHIFT_FREQSEL : Nat := 4
def BM_POWER_MISC_FREQSEL : Nat := 7 <<< SHIFT_FREQSEL
def HW_POWER_MISC_FREQSEL_20000_KHZ : Nat := 1
def HW_POWER_MISC_FREQSEL_24000_KHZ : Nat := 2
def HW_POWER_MISC_FREQSEL_19200_KHZ : Nat := 3
def HW_POWER_MISC_SEL_PLLCLK : Nat := 1

/-- The FREQSEL encoding the switch in set_dcdc_clk_freq selects for a
frequency, none for every unrecognized frequency. -/
def freqsel_encoding (kHz : Int) : Option Nat :=
  if kHz = 19200 then some HW_POWER_MISC_FREQSEL_19200_KHZ
  else if kHz = 20000 then some HW_POWER_MISC_FREQSEL_20000_KHZ
  else if kHz = 24000 then some HW_POWER_MISC_FREQSEL_24000_KHZ
  else none

/-- Embedding of set_dcdc_clk_freq: returns the errno and the list of values
written to the clock-select register.  From the initial register value the
FREQSEL field and the PLL-select bit are cleared; an accepted frequency ORs
its encoding into the field and produces two writes, the second adding the
PLL-select bit; every other frequency returns -EINVAL before any write. -/
def set_dcdc_clk_freq (misc0 : Nat) (kHz : Int) : Int × List Nat :=
  let val := (misc0 &&& compl32 BM_POWER_MISC_FREQSEL) &&& compl32 HW_POWER_MISC_SEL_PLLCLK
  if kHz = 19200 then
    (0, [val ||| (HW_POWER_MISC_FREQSEL_19200_KHZ <<< SHIFT_FREQSEL),
         (val ||| (HW_POWER_MISC_FREQSEL_19200_KHZ <<< SHIFT_FREQSEL)) ||| HW_POWER_MISC_SEL_PLLCLK])
  else if kHz = 20000 then
    (0, [val ||| (HW_POWER_MISC_FREQSEL_20000_KHZ <<< SHIFT_FREQSEL),
         (val ||| (HW_POWER_MISC_FREQSEL_20000_KHZ <<< SHIFT_FREQSEL)) ||| HW_POWER_MISC_SEL_PLLCLK])
  else if kHz = 24000 then
    (0, [val ||| (HW_POWER_MISC_FREQSEL_24000_KHZ <<< SHIFT_FREQSEL),
         (val ||| (HW_POWER_MISC_FREQSEL_24000_KHZ <<< SHIFT_FREQSEL)) ||| HW_POWER_MISC_SEL_PLLCLK])
  else (-EINVAL, [])

/-- A poll whose every read within the budget lacks the DC-OK bit expires. -/
theorem findDcOk_eq_none (reads : Nat → Nat) (idx n : Nat)
    (h : ∀ i, i < n → (reads (idx + i)) &&& BM_POWER_STS_DC_OK = 0) :
    findDcOk reads idx n = none := by
  induction n generalizing idx with
  | zero => rfl
  | succ m ih =>
    have h0 : (reads idx) &&& BM_POWER_STS_DC_OK = 0 := by
      simpa using h 0 (by omega)
    unfold findDcOk
    rw [if_neg (by simp [h0])]
    apply ih
    intro i hi
    have h2 := h (i + 1) (by omega)
    have e : idx + (i + 1) = idx + 1 + i := by omega
    rw [e] at h2
    exact h2

/-- Masking with the low-five-bits select mask is the identity below 32. -/
theorem and_31_of_lt (n : Nat) (h : n < 32) : n &&& 31 = n := by
  have h2 : n < 2 ^ 5 := by omega
  have h3 := Nat.and_pow_two_sub_one_of_lt_two_pow h2
  norm_num at h3
  exact h3

/-- C1 (code bug): the vdda/vddd classifier diverges from the claimed decision
tree because get_linreg_offset computes regs & (mask >> shift) - the C shift
binds tighter than the and - instead of the field (regs & mask) >> shift that
the driver names and its decode helpers document.  At vdda control register 2
(a TRG bit), status 0, 5V-control 0, the code sees offset 2 (DC-DC mode) and
classifies DcdcLinregOff, while the real offset field (bits 12-13) is 0, so
the claimed tree yields Unknown. -/
theorem vdda_vddd_classifier_precedence_bug :
    get_vdda_vddd_power_source mxs_info_vdda { base := 2, status := 0, v5ctrl := 0 }
        = HW_POWER_DCDC_LINREG_OFF ∧
    spec_vdda_vddd_power_source mxs_info_vdda { base := 2, status := 0, v5ctrl := 0 }
        = HW_POWER_UNKNOWN_SOURCE ∧
    get_linreg_offset mxs_info_vdda 2 = HW_POWER_LINREG_OFFSET_DCDC_MODE ∧
    spec_linreg_offset mxs_info_vdda 2 = HW_POWER_LINREG_OFFSET_LINREG_MODE := by
  decide

/-- C2 (code bug): with vdda control register 0x1000 (offset field 1), status
0x8000 (5V valid) and 5V-control 1 (DC-DC enabled), the classifier reports
DcdcLinregOn and the bind-time correction fires, but the code writes the value
2: the offset field bits are cleared and the DC-DC-mode constant is ORed in
without the field shift.  The written register has offset field 0, not the
DC-DC-mode encoding, and bit 1 - outside the field, a TRG bit - changed;
the write the claim describes is 0x2000. -/
theorem regulator_init_offset_write_bug :
    regulator_init mxs_info_vdda (some (get_vdda_vddd_power_source mxs_info_vdda))
        { base := 0x1000, status := 0x8000, v5ctrl := 1 } = some 2 ∧
    get_vdda_vddd_power_source mxs_info_vdda { base := 0x1000, status := 0x8000, v5ctrl := 1 }
        = HW_POWER_DCDC_LINREG_ON ∧
    spec_init_rewrite mxs_info_vdda 0x1000 = 0x2000 ∧
    spec_linreg_offset mxs_info_vdda 2 ≠ HW_POWER_LINREG_OFFSET_DCDC_MODE ∧
    2 &&& compl32 mxs_info_vdda.linreg_offset_mask ≠
      0x1000 &&& compl32 mxs_info_vdda.linreg_offset_mask := by
  decide

/-- C3: the check-and-commit step performed under the parent lock preserves
the ceiling invariant: starting from cur ≤ max the committed allocation stays
at most max; a rejected delta returns -EINVAL with the allocation unchanged
(never clamped to the ceiling); an accepted delta commits exactly cur + uA. -/
theorem main_add_current_preserves_ceiling (cur max uA : Int) (h : cur ≤ max) :
    (main_add_current cur max uA).2 ≤ max ∧
    ((main_add_current cur max uA).1 ≠ 0 → main_add_current cur max uA = (-EINVAL, cur)) ∧
    ((main_add_current cur max uA).1 = 0 → (main_add_current cur max uA).2 = cur + uA) := by
  unfold main_add_current
  by_cases hc : uA > 0 ∧ cur + uA > max
  · rw [if_pos hc]
    exact ⟨by simpa using h, fun _ => rfl, fun h0 => by simp [EINVAL] at h0⟩
  · rw [if_neg hc]
    exact ⟨by simp only; omega, fun hne => by simp at hne, fun _ => by simp⟩

/-- Witness for C3 at cur = 100, max = 200, uA = 50. -/
theorem main_add_current_preserves_ceiling_witness :
    (main_add_current 100 200 50).2 ≤ 200 ∧
    ((main_add_current 100 200 50).1 ≠ 0 → main_add_current 100 200 50 = (-EINVAL, 100)) ∧
    ((main_add_current 100 200 50).1 = 0 → (main_add_current 100 200 50).2 = 100 + 50) :=
  main_add_current_preserves_ceiling 100 200 50 (by decide)

/-- C4: a fast-mode request whose delta exceeds the parent headroom gets the
budget-exceeded errno (-EINVAL, the value the code uses for it) back at once:
the result is the error case with both allocations untouched, and the
blocking wait path is not entered. -/
theorem fast_mode_budget_exceeded_errs_immediately
    (sreg_cur parent_cur parent_max max_uA : Int)
    (hpos : 0 < max_uA - sreg_cur)
    (hover : parent_max < parent_cur + (max_uA - sreg_cur)) :
    mxs_set_current_limit true sreg_cur parent_cur parent_max REGULATOR_MODE_FAST max_uA
      = CurrentLimitResult.err (-EINVAL) sreg_cur parent_cur ∧
    (mxs_set_current_limit true sreg_cur parent_cur parent_max
        REGULATOR_MODE_FAST max_uA).isBlocked = false := by
  have hr : main_add_current parent_cur parent_max (max_uA - sreg_cur)
      = (-EINVAL, parent_cur) := by
    unfold main_add_current
    rw [if_pos ⟨hpos, by omega⟩]
  unfold mxs_set_current_limit
  rw [hr]
  norm_num [CurrentLimitResult.isBlocked, EINVAL]

/-- Witness for C4: own allocation 0, parent at 90 of 100, request 50. -/
theorem fast_mode_budget_exceeded_witness :
    mxs_set_current_limit true 0 90 100 REGULATOR_MODE_FAST 50
      = CurrentLimitResult.err (-EINVAL) 0 90 ∧
    (mxs_set_current_limit true 0 90 100 REGULATOR_MODE_FAST 50).isBlocked = false :=
  fast_mode_budget_exceeded_errs_immediately 0 90 100 50 (by decide) (by decide)

/-- C5 counterexample: two timed-out runs of the two-phase voltage setter
whose observed status register values differ throughout (0 in one run, 1024
in the other, neither with DC-OK set) return the identical bare errno
-ETIMEDOUT.  The value returned to the caller is therefore independent of the
last observed status register value: the caller does not receive that value
in the error, refuting the claim as stated at these inputs (the value is only
logged, by the selector-based variant, in a ratelimited warning). -/
theorem timeout_error_does_not_carry_status :
    (mxs_set_voltage 800000 1575000 31 31 0 (fun _ => 0) 0 1000000).ret = -ETIMEDOUT ∧
    (mxs_set_voltage 800000 1575000 31 31 0 (fun _ => 1024) 0 1000000).ret = -ETIMEDOUT ∧
    (mxs_set_voltage 800000 1575000 31 31 0 (fun _ => 0) 0 1000000).lastStatus = some 0 ∧
    (mxs_set_voltage 800000 1575000 31 31 0 (fun _ => 1024) 0 1000000).lastStatus
      = some 1024 ∧
    (mxs_set_voltage 800000 1575000 31 31 0 (fun _ => 0) 0 1000000).ret
      = (mxs_set_voltage 800000 1575000 31 31 0 (fun _ => 1024) 0 1000000).ret := by
  decide

/-- C5 as amended: when every poll of both phases of the two-phase setter
misses DC-OK the call returns -ETIMEDOUT, and when the selector-based engine
(on the non-linreg path) exhausts its poll budget the same way it returns
-ETIMEDOUT and emits the freshly read, last observed status register value in
its diagnostic warning - the status value is reported there, not inside the
returned error. -/
theorem voltage_timeout_returns_etimedout
    (con_min con_max max_uV : Int) (nv vmask base0 : Nat) (reads : Nat → Nat)
    (budget2 : Nat) (sreg : MxsRegulator) (gps : Option (RegSnapshot → Nat))
    (st : VoltState) (sel pollBudget : Nat)
    (hrange : ¬(max_uV < con_min ∨ con_max < max_uV))
    (hdc1 : ∀ i, i < 20 + (budget2 + 1) → (reads i) &&& BM_POWER_STS_DC_OK = 0)
    (hsel : sel < sreg.n_voltages)
    (hps : isLinregSource (classifiedSource sreg gps st sel) = false)
    (hdc2 : ∀ i, i < pollBudget + 1 → (st.statusReads (1 + i)) &&& BM_POWER_STS_DC_OK = 0) :
    (mxs_set_voltage con_min con_max nv vmask base0 reads budget2 max_uV).ret
      = -ETIMEDOUT ∧
    (mxs_set_voltage_sel sreg gps st sel pollBudget).ret = -ETIMEDOUT ∧
    (mxs_set_voltage_sel sreg gps st sel pollBudget).warnedStatus
      = some (st.statusReads (pollBudget + 2)) := by
  have hf1 : findDcOk reads 0 20 = none :=
    findDcOk_eq_none reads 0 20 (fun i hi => by simpa using hdc1 i (by omega))
  have hf2 : findDcOk reads 20 (budget2 + 1) = none :=
    findDcOk_eq_none reads 20 (budget2 + 1) (fun i hi => hdc1 (20 + i) (by omega))
  have hf3 : findDcOk st.statusReads 1 (pollBudget + 1) = none :=
    findDcOk_eq_none st.statusReads 1 (pollBudget + 1) (fun i hi => hdc2 i hi)
  have hns : ¬ sreg.n_voltages ≤ sel := by omega
  refine ⟨?_, ?_, ?_⟩
  · simp [mxs_set_voltage, if_neg hrange, hf1, hf2, hrange]
  · simp [mxs_set_voltage_sel, hns, hps, hf3]
  · simp [mxs_set_voltage_sel, hns, hps, hf3]

/-- Witness for C5 as amended: a two-phase run over the vddio range and a
selector-based vdda run, both reading a status register that never asserts
DC-OK. -/
theorem voltage_timeout_returns_etimedout_witness :
    (mxs_set_voltage 2800000 3575000 16 31 0 (fun _ => 0) 1 3000000).ret
      = -ETIMEDOUT ∧
    (mxs_set_voltage_sel mxs_info_vdda (some (get_vdda_vddd_power_source mxs_info_vdda))
        { base := 0, v5ctrl := 0, statusReads := fun _ => 0 } 0 0).ret = -ETIMEDOUT ∧
    (mxs_set_voltage_sel mxs_info_vdda (some (get_vdda_vddd_power_source mxs_info_vdda))
        { base := 0, v5ctrl := 0, statusReads := fun _ => 0 } 0 0).warnedStatus
      = some 0 :=
  voltage_timeout_returns_etimedout 2800000 3575000 3000000 16 31 0 (fun _ => 0) 1
    mxs_info_vdda (some (get_vdda_vddd_power_source mxs_info_vdda))
    { base := 0, v5ctrl := 0, statusReads := fun _ => 0 } 0 0
    (by decide) (by decide) (by decide) (by decide) (by decide)

/-- C6: a selector at or above n_voltages is rejected with -EINVAL (the
invalid-selector errno) before anything happens: no register write, no sleep,
no poll, the control register untouched. -/
theorem invalid_selector_rejected_without_write (sreg : MxsRegulator)
    (gps : Option (RegSnapshot → Nat)) (st : VoltState) (sel pollBudget : Nat)
    (h : sreg.n_voltages ≤ sel) :
    mxs_set_voltage_sel sreg gps st sel pollBudget =
      { ret := -EINVAL, base := st.base, writes := [], sleeps := [], polls := 0,
        warnedStatus := none } := by
  unfold mxs_set_voltage_sel
  rw [if_pos h]

/-- Witness for C6: selector 40 against the 32-entry vdda table. -/
theorem invalid_selector_rejected_witness :
    mxs_set_voltage_sel mxs_info_vdda (some (get_vdda_vddd_power_source mxs_info_vdda))
        { base := 7, v5ctrl := 0, statusReads := fun _ => 0 } 40 3 =
      { ret := -EINVAL, base := 7, writes := [], sleeps := [], polls := 0,
        warnedStatus := none } :=
  invalid_selector_rejected_without_write mxs_info_vdda
    (some (get_vdda_vddd_power_source mxs_info_vdda))
    { base := 7, v5ctrl := 0, statusReads := fun _ => 0 } 40 3 (by decide)

/-- C7: for a valid selector on a descriptor with the low-five-bit select
mask (as every table entry has), a successful mxs_set_voltage_sel leaves the
control register holding the selector in the select field, so
mxs_get_voltage_sel reads the same selector back. -/
theorem set_get_voltage_sel_roundtrip (sreg : MxsRegulator)
    (gps : Option (RegSnapshot → Nat)) (st : VoltState) (sel pollBudget : Nat)
    (hsel : sel < sreg.n_voltages) (hmask : sreg.vsel_mask = 31)
    (hn : sreg.n_voltages ≤ 32)
    (hok : (mxs_set_voltage_sel sreg gps st sel pollBudget).ret = 0) :
    mxs_get_voltage_sel sreg ((mxs_set_voltage_sel sreg gps st sel pollBudget).base)
      = sel := by
  have hbase : (mxs_set_voltage_sel sreg gps st sel pollBudget).base
      = newBaseVal sreg st sel := by
    unfold mxs_set_voltage_sel
    rw [if_neg (by omega)]
    by_cases hl : isLinregSource (classifiedSource sreg gps st sel)
    · rw [if_pos hl]
    · rw [if_neg hl]
      cases hfd : findDcOk st.statusReads 1 (pollBudget + 1) <;> simp
  rw [hbase]
  unfold mxs_get_voltage_sel newBaseVal
  rw [hmask, Nat.and_distrib_right]
  have h1 : compl32 31 &&& 31 = 0 := by decide
  rw [Nat.and_assoc, h1, Nat.and_zero, Nat.or_zero]
  exact and_31_of_lt sel (by omega)

/-- Witness for C7: selector 5 on vdda, with a status read asserting DC-OK. -/
theorem set_get_voltage_sel_roundtrip_witness :
    mxs_get_voltage_sel mxs_info_vdda
        ((mxs_set_voltage_sel mxs_info_vdda
            (some (get_vdda_vddd_power_source mxs_info_vdda))
            { base := 0, v5ctrl := 0, statusReads := fun _ => 512 } 5 0).base) = 5 :=
  set_get_voltage_sel_roundtrip mxs_info_vdda
    (some (get_vdda_vddd_power_source mxs_info_vdda))
    { base := 0, v5ctrl := 0, statusReads := fun _ => 512 } 5 0
    (by decide) (by decide) (by decide) (by decide)

/-- C8: for a valid selector, when the classifier consulted right after the
control-register write reports LinRegDcdcOff, LinRegDcdcReady or
ExternalSource5V, the engine performs no status poll at all, sleeps the fixed
1000 ms settle delay, and returns success with the new register value. -/
theorem linreg_source_skips_poll (sreg : MxsRegulator)
    (gps : Option (RegSnapshot → Nat)) (st : VoltState) (sel pollBudget : Nat)
    (hsel : sel < sreg.n_voltages)
    (hps : isLinregSource (classifiedSource sreg gps st sel) = true) :
    mxs_set_voltage_sel sreg gps st sel pollBudget =
      { ret := 0, base := newBaseVal sreg st sel,
        writes := [newBaseVal sreg st sel], sleeps := [1000], polls := 0,
        warnedStatus := none } := by
  unfold mxs_set_voltage_sel
  rw [if_neg (by omega), if_pos hps]

/-- Witness for C8: vdda with the disable-FET bit set and no 5V, classified
LinRegDcdcOff. -/
theorem linreg_source_skips_poll_witness :
    mxs_set_voltage_sel mxs_info_vdda (some (get_vdda_vddd_power_source mxs_info_vdda))
        { base := 0x10000, v5ctrl := 0, statusReads := fun _ => 0 } 0 4 =
      { ret := 0,
        base := newBaseVal mxs_info_vdda
          { base := 0x10000, v5ctrl := 0, statusReads := fun _ => 0 } 0,
        writes := [newBaseVal mxs_info_vdda
          { base := 0x10000, v5ctrl := 0, statusReads := fun _ => 0 } 0],
        sleeps := [1000], polls := 0, warnedStatus := none } :=
  linreg_source_skips_poll mxs_info_vdda
    (some (get_vdda_vddd_power_source mxs_info_vdda))
    { base := 0x10000, v5ctrl := 0, statusReads := fun _ => 0 } 0 4
    (by decide) (by decide)

/-- C9: set_dcdc_clk_freq succeeds exactly on 19200, 20000 and 24000 kHz; on
success it performs exactly two writes, the first placing the FREQSEL
encoding in the cleared clock-select register with the PLL-select bit still
clear, the second the same value with the PLL-select bit added; every other
frequency returns -EINVAL with no write. -/
theorem set_dcdc_clk_freq_correct (misc0 : Nat) (kHz : Int) :
    ((set_dcdc_clk_freq misc0 kHz).1 = 0 ↔
      (kHz = 19200 ∨ kHz = 20000 ∨ kHz = 24000)) ∧
    (set_dcdc_clk_freq misc0 kHz).2 = (match freqsel_encoding kHz with
      | none => []
      | some e =>
        [((misc0 &&& compl32 BM_POWER_MISC_FREQSEL) &&& compl32 HW_POWER_MISC_SEL_PLLCLK)
           ||| (e <<< SHIFT_FREQSEL),
         (((misc0 &&& compl32 BM_POWER_MISC_FREQSEL) &&& compl32 HW_POWER_MISC_SEL_PLLCLK)
           ||| (e <<< SHIFT_FREQSEL)) ||| HW_POWER_MISC_SEL_PLLCLK]) ∧
    ((set_dcdc_clk_freq misc0 kHz).1 = 0 ∨
      ((set_dcdc_clk_freq misc0 kHz).1 = -EINVAL ∧ (set_dcdc_clk_freq misc0 kHz).2 = [])) := by
  by_cases h1 : kHz = 19200
  · subst h1; simp [set_dcdc_clk_freq, freqsel_encoding]
  · by_cases h2 : kHz = 20000
    · subst h2; simp [set_dcdc_clk_freq, freqsel_encoding]
    · by_cases h3 : kHz = 24000
      · subst h3; simp [set_dcdc_clk_freq, freqsel_encoding]
      · simp [set_dcdc_clk_freq, freqsel_encoding, h1, h2, h3, EINVAL]

/-- C10: when the fast-mode reservation against the parent fails, the error
path changes nothing: both the requesting instance allocation and the parent
allocation after the call equal their values before it. -/
theorem fast_mode_failure_is_atomic (sreg_cur parent_cur parent_max max_uA : Int)
    (hfail : (main_add_current parent_cur parent_max (max_uA - sreg_cur)).1 ≠ 0) :
    (mxs_set_current_limit true sreg_cur parent_cur parent_max
        REGULATOR_MODE_FAST max_uA).sregCurAfter = sreg_cur ∧
    (mxs_set_current_limit true sreg_cur parent_cur parent_max
        REGULATOR_MODE_FAST max_uA).parentCurAfter = parent_cur := by
  have hr : main_add_current parent_cur parent_max (max_uA - sreg_cur)
      = (-EINVAL, parent_cur) := by
    unfold main_add_current at hfail ⊢
    by_cases hc : max_uA - sreg_cur > 0 ∧ parent_cur + (max_uA - sreg_cur) > parent_max
    · rw [if_pos hc]
    · rw [if_neg hc] at hfail
      simp at hfail
  unfold mxs_set_current_limit
  rw [hr]
  norm_num [CurrentLimitResult.sregCurAfter, CurrentLimitResult.parentCurAfter, EINVAL]

/-- Witness for C10: own allocation 10, parent at 80 of 100, request 200. -/
theorem fast_mode_failure_is_atomic_witness :
    (mxs_set_current_limit true 10 80 100 REGULATOR_MODE_FAST 200).sregCurAfter = 10 ∧
    (mxs_set_current_limit true 10 80 100 REGULATOR_MODE_FAST 200).parentCurAfter = 80 :=
  fast_mode_failure_is_atomic 10 80 100 200 (by decide)
